import Mathlib

/-!
Shallow embedding of the goethe-exam-simulator client core:
the static level/module configuration table (src/lib/exam-data.ts),
the request-deduplication and polling client (src/unnamed/part_002),
and the scoring / finish logic of the exam interface
(src/components/exam-interface.tsx, `handleFinishExam`) together with the
completion handoff in src/app/page.tsx.

Naming note: identifiers that contain umlauts in the TypeScript source
(`Hören`, `geschätztePunktzahl`) are transliterated (`Hoeren`,
`geschaetztePunktzahl`) because Lean identifiers do not allow those
characters.  JavaScript numbers are modelled as exact rationals, with an
explicit `JSNum` wrapper (NaN / ±Infinity / value) where the source can
produce a non-finite value.
-/

namespace GoetheExam

/-- CEFR levels, from `export type CEFRLevel` in src/app/page.tsx. -/
inductive CEFRLevel
  | A1
  | A2
  | B1
  | B2
  | C1
  | C2
deriving DecidableEq

/-- Exam modules, from `export type ExamModule` in src/app/page.tsx
(`Hören` transliterated to `Hoeren`). -/
inductive ExamModule
  | Lesen
  | Hoeren
  | Schreiben
  | Sprechen
deriving DecidableEq

/-- Per-module entry of the config table: `{ duration, tasks, maxPoints }`
from `ExamConfig.modules` in src/lib/exam-data.ts. -/
structure ModuleConfig where
  duration : Nat
  tasks : Nat
  maxPoints : Nat
deriving DecidableEq

/-- `ExamConfig` from src/lib/exam-data.ts. -/
structure ExamConfig where
  level : CEFRLevel
  title : String
  subtitle : String
  description : String
  passScore : Nat
  modules : ExamModule → ModuleConfig

/-- The static configuration table `examConfigs` from src/lib/exam-data.ts
(lines 55-134), transcribed entry by entry. -/
def examConfigs : CEFRLevel → ExamConfig
  | CEFRLevel.A1 =>
    { level := CEFRLevel.A1
      title := "Goethe-Zertifikat A1"
      subtitle := "Start Deutsch 1 - Basic German for beginners"
      description := "Basic everyday communication"
      passScore := 60
      modules := fun m => match m with
        | ExamModule.Lesen => ⟨25, 3, 25⟩
        | ExamModule.Hoeren => ⟨20, 3, 25⟩
        | ExamModule.Schreiben => ⟨20, 2, 25⟩
        | ExamModule.Sprechen => ⟨15, 3, 25⟩ }
  | CEFRLevel.A2 =>
    { level := CEFRLevel.A2
      title := "Goethe-Zertifikat A2"
      subtitle := "Start Deutsch 2 - Elementary German"
      description := "Simple routine tasks"
      passScore := 60
      modules := fun m => match m with
        | ExamModule.Lesen => ⟨30, 4, 25⟩
        | ExamModule.Hoeren => ⟨30, 4, 25⟩
        | ExamModule.Schreiben => ⟨30, 2, 25⟩
        | ExamModule.Sprechen => ⟨15, 3, 25⟩ }
  | CEFRLevel.B1 =>
    { level := CEFRLevel.B1
      title := "Goethe-Zertifikat B1"
      subtitle := "Intermediate German - Independent language use"
      description := "Familiar matters and personal interests"
      passScore := 60
      modules := fun m => match m with
        | ExamModule.Lesen => ⟨65, 5, 25⟩
        | ExamModule.Hoeren => ⟨40, 4, 25⟩
        | ExamModule.Schreiben => ⟨60, 3, 25⟩
        | ExamModule.Sprechen => ⟨15, 3, 25⟩ }
  | CEFRLevel.B2 =>
    { level := CEFRLevel.B2
      title := "Goethe-Zertifikat B2"
      subtitle := "Upper Intermediate - Advanced independent use"
      description := "Complex texts and spontaneous interaction"
      passScore := 60
      modules := fun m => match m with
        | ExamModule.Lesen => ⟨65, 4, 25⟩
        | ExamModule.Hoeren => ⟨40, 3, 25⟩
        | ExamModule.Schreiben => ⟨75, 2, 25⟩
        | ExamModule.Sprechen => ⟨15, 2, 25⟩ }
  | CEFRLevel.C1 =>
    { level := CEFRLevel.C1
      title := "Goethe-Zertifikat C1"
      subtitle := "Advanced German - Proficient language use"
      description := "Demanding texts and flexible language use"
      passScore := 60
      modules := fun m => match m with
        | ExamModule.Lesen => ⟨70, 4, 25⟩
        | ExamModule.Hoeren => ⟨40, 3, 25⟩
        | ExamModule.Schreiben => ⟨80, 2, 25⟩
        | ExamModule.Sprechen => ⟨15, 2, 25⟩ }
  | CEFRLevel.C2 =>
    { level := CEFRLevel.C2
      title := "Goethe-Zertifikat C2"
      subtitle := "Großes Deutsches Sprachdiplom - Mastery level"
      description := "Near-native proficiency"
      passScore := 60
      modules := fun m => match m with
        | ExamModule.Lesen => ⟨80, 4, 25⟩
        | ExamModule.Hoeren => ⟨35, 3, 25⟩
        | ExamModule.Schreiben => ⟨80, 2, 25⟩
        | ExamModule.Sprechen => ⟨15, 2, 25⟩ }

/-! JavaScript value model used by the answer map and scoring. -/

/-- A raw answer value stored in the `answers` record of exam-interface.tsx:
an option index (number) or free text (string). -/
inductive JSAnswer
  | num (n : Int)
  | str (s : String)
deriving DecidableEq

/-- The `answers` record (`Record<number, any>`): question ordinal to stored
value, `none` standing for a missing (`undefined`) entry. -/
abbrev AnswerMap := Nat → Option JSAnswer

/-- JavaScript strict equality `===` restricted to the values that occur as
answers: `undefined === undefined` is true, values of distinct runtime types
are never equal. -/
def strictEq : Option JSAnswer → Option JSAnswer → Bool
  | none, none => true
  | some (JSAnswer.num a), some (JSAnswer.num b) => a == b
  | some (JSAnswer.str a), some (JSAnswer.str b) => a == b
  | _, _ => false

/-- JavaScript truthiness of an answer value: `undefined` and the empty
string (and the number 0) are falsy. -/
def truthy : Option JSAnswer → Bool
  | none => false
  | some (JSAnswer.num n) => n != 0
  | some (JSAnswer.str s) => s != ""

/-- A JavaScript number that may be non-finite.  `0/0` is `nan`, `x/0` for
nonzero `x` is a signed infinity; every other arithmetic result here stays an
exact rational. -/
inductive JSNum
  | nan
  | posInf
  | negInf
  | val (x : ℚ)
deriving DecidableEq

/-- JavaScript division producing a `JSNum` (total, unlike the Lean `/` on ℚ
which returns 0 on division by zero). -/
def jsDiv (a b : ℚ) : JSNum :=
  if b = 0 then
    if a = 0 then JSNum.nan
    else if 0 < a then JSNum.posInf
    else JSNum.negInf
  else JSNum.val (a / b)

/-- Multiplication of a possibly non-finite number by an exact constant,
following JavaScript semantics (`NaN * c = NaN`, `±Infinity * 0 = NaN`). -/
def jsMul : JSNum → ℚ → JSNum
  | JSNum.nan, _ => JSNum.nan
  | JSNum.posInf, c => if 0 < c then JSNum.posInf else if c < 0 then JSNum.negInf else JSNum.nan
  | JSNum.negInf, c => if 0 < c then JSNum.negInf else if c < 0 then JSNum.posInf else JSNum.nan
  | JSNum.val x, c => JSNum.val (x * c)

/-- `Math.round` on a finite value: round half up, `⌊x + 1/2⌋`. -/
def jsRound (x : ℚ) : ℤ := ⌊x + 1/2⌋

/-- `Math.round` lifted to `JSNum` (`Math.round(NaN) = NaN`,
`Math.round(±Infinity) = ±Infinity`). -/
def jsRoundNum : JSNum → JSNum
  | JSNum.nan => JSNum.nan
  | JSNum.posInf => JSNum.posInf
  | JSNum.negInf => JSNum.negInf
  | JSNum.val x => JSNum.val (jsRound x)

/-- JavaScript `>=` comparison of a possibly non-finite number against a
finite bound: any comparison with `NaN` is false. -/
def jsGe (a : JSNum) (b : ℚ) : Bool :=
  match a with
  | JSNum.nan => false
  | JSNum.posInf => true
  | JSNum.negInf => false
  | JSNum.val x => decide (b ≤ x)

/-! Question model and local scoring (exam-interface.tsx, handleFinishExam). -/

/-- The `type` discriminator of `Question` in src/lib/exam-data.ts. -/
inductive QType
  | multipleChoice
  | text
  | audio
  | speaking
deriving DecidableEq

/-- `Question` from src/lib/exam-data.ts, restricted to the fields the
scoring step reads (`type`, `correctAnswer`); `correctAnswer` is
`string | number` and optional, hence `Option JSAnswer`. -/
structure Question where
  id : Nat
  type : QType
  question : String
  correctAnswer : Option JSAnswer
deriving DecidableEq

/-- Contribution of one question to the score in the non-listening,
non-writing branch of `handleFinishExam` (exam-interface.tsx lines 227-234):
1 point for a multiple-choice question whose stored answer is strictly equal
to `correctAnswer`, 0.8 points for a text/speaking question with a truthy
answer, 0 otherwise. -/
def questionPoints (q : Question) (a : Option JSAnswer) : ℚ :=
  if q.type = QType.multipleChoice ∧ strictEq a q.correctAnswer = true then 1
  else if (q.type = QType.text ∨ q.type = QType.speaking) ∧ truthy a = true then 8/10
  else 0

/-- Total raw score of the "regular scoring" branch: the `forEach`
accumulation over `questions` in `handleFinishExam`. -/
def regularScore (questions : List Question) (answers : AnswerMap) : ℚ :=
  questions.enum.foldl (fun s p => s + questionPoints p.2 (answers p.1)) 0

/-- `percentage = Math.round((score / questions.length) * 100)` from the
regular scoring branch.  The source has no guard for an empty question list:
with zero questions the score is 0 and JavaScript computes
`Math.round((0/0)*100) = NaN`. -/
def regularPercentage (questions : List Question) (answers : AnswerMap) : JSNum :=
  jsRoundNum (jsMul (jsDiv (regularScore questions answers) (questions.length : ℚ)) 100)

/-! Listening (Hören) scoring. -/

/-- `ListeningFlatQuestion`: the flattened listening question record imported
by exam-interface.tsx from `@/lib/exam-data`.  Its declaration is not among
the source files; the fields are taken from its uses in exam-interface.tsx
(`globalIndex`, `teilNummer`, `szenarioNummer`, `correctAnswerIndex`) and
from the description in the spec of the flattened listening index. -/
structure ListeningFlatQuestion where
  globalIndex : Nat
  teilNummer : Nat
  szenarioNummer : Nat
  correctAnswerIndex : Int
deriving DecidableEq

/-- The `listeningAnswerAggregate` reduction of `handleFinishExam`
(exam-interface.tsx lines 208-214): walk the flattened questions in order
and, whenever the stored answer at that ordinal is a number, record it under
the `globalIndex` of the question (later writes overwrite earlier ones, as for a
JavaScript object). -/
def listeningAnswerAggregate (listeningQuestions : List ListeningFlatQuestion)
    (answers : AnswerMap) : Nat → Option Int :=
  listeningQuestions.enum.foldl
    (fun acc p =>
      match answers p.1 with
      | some (JSAnswer.num v) => fun k => if k = p.2.globalIndex then some v else acc k
      | _ => acc)
    (fun _ => none)

/-- The listening score accumulation of `handleFinishExam` (lines 216-220):
one point per flattened question whose aggregated answer equals its
`correctAnswerIndex`. -/
def listeningScore (listeningQuestions : List ListeningFlatQuestion)
    (agg : Nat → Option Int) : Nat :=
  listeningQuestions.foldl
    (fun s q => if agg q.globalIndex = some q.correctAnswerIndex then s + 1 else s) 0

/-- The listening percentage (lines 222-223):
`totalListeningQuestions > 0 ? Math.round((score / total) * 100) : 0`. -/
def listeningPercentage (listeningQuestions : List ListeningFlatQuestion)
    (answers : AnswerMap) : JSNum :=
  let score := listeningScore listeningQuestions (listeningAnswerAggregate listeningQuestions answers)
  if 0 < listeningQuestions.length then
    JSNum.val ((jsRound ((score : ℚ) / (listeningQuestions.length : ℚ) * 100) : ℤ) : ℚ)
  else JSNum.val 0

/-! Writing evaluation (src/unnamed/part_002). -/

/-- `BewertungsKriterium` from src/unnamed/part_002. -/
structure BewertungsKriterium where
  kriterium : String
  bewertung : String
  kommentar : String
  vorschlag : String
deriving DecidableEq

/-- `WritingEvaluation` from src/unnamed/part_002
(`geschätztePunktzahl` transliterated). -/
structure WritingEvaluation where
  geschaetztePunktzahl : ℚ
  zusammenfassung : String
  bewertungsKriterien : List BewertungsKriterium
  korrigierterText : String
deriving DecidableEq

/-- `EvaluationResponse` from src/unnamed/part_002. -/
structure EvaluationResponse where
  evaluation : WritingEvaluation
deriving DecidableEq

/-- `getWritingEvaluationSample` from src/unnamed/part_002 (lines 204-232):
the fixed local sample evaluation substituted when the remote evaluation is
unavailable.  String contents transcribed verbatim (apostrophes written as
the escape \x27). -/
def getWritingEvaluationSample : EvaluationResponse :=
  { evaluation :=
    { geschaetztePunktzahl := 45
      zusammenfassung := "Teil 1 wurde größtenteils korrekt ausgefüllt, jedoch enthält das Sprachfeld einen Formfehler. Die Nachricht in Teil 2 ist unpassend, da sie das Thema der Geburtstagseinladung nicht erfüllt und in formellem Register geschrieben wurde."
      bewertungsKriterien :=
        [ { kriterium := "Aufgabenerfüllung"
            bewertung := "Teilweise erfüllt"
            kommentar := "Im Formular (Teil 1) wurden alle Felder ausgefüllt, jedoch ist \"Englische\" als Sprache grammatikalisch nicht korrekt (korrekt: \"Englisch\") und teils unpassende Zuordnung der Informationen (Geburtsort wurde als Land, nicht Stadt eingetragen). In Teil 2 wurde die Aufgabe nicht erfüllt: Der Text ist eine formelle Anfrage für ein Hotelzimmer statt einer Geburtstagseinladung an einen Freund oder eine Freundin."
            vorschlag := "Achten Sie darauf, sämtliche Leitpunkte der Aufgabenstellung zu verwenden. Bei Nachrichten an Freunde/freundinnen informell bleiben und unbedingt Einladung, Ort, Datum sowie Aktivitäten nennen." },
          { kriterium := "Wortschatz"
            bewertung := "Ausreichend"
            kommentar := "Für A1-Niveau grundsätzlich verständliche Wörter verwendet. Im Formular sollte für \x27Sprache\x27 nur das Substantiv (z. B. \x27Englisch\x27 oder \x27Deutsch\x27) stehen. In Teil 2 wurde formelles Deutsch benutzt, das für diese Aufgabe ungeeignet ist."
            vorschlag := "Üben Sie, einfachen und passenden Wortschatz für Einladungen und informelle Kommunikation auszuwählen. Beispiel: \x27Ich lade dich zu meinem Geburtstag ein.\x27" },
          { kriterium := "Grammatik & Strukturen"
            bewertung := "Verbesserungswürdig"
            kommentar := "Teil 1: Formale kleine Fehler (\"Englische\"). Teil 2: Strukturen und Form sind für eine Einladung an Freunde nicht angemessen."
            vorschlag := "Wiederholen Sie Beispielsätze für Einladungen: \x27Ich feiere am 5. Mai meinen Geburtstag. Du bist herzlich eingeladen.\x27 Üben Sie die richtige Verwendung von Substantiven und Adjektiven im Formular." } ]
      korrigierterText := "Teil 1:\nNachname: Hans\nVorname: Kristanto\nAdresse: Angela-Molitoris-Platz 1 München\nGeburtsdatum: 16.11.1988\nGeburtsort: **Indonesien** [Jakarta (Beispielstadt in Indonesien)]\nSprache: **Englische** [Englisch]\n\nTeil 2:\n**Sehr geehrte Damen und Herren,\n\nich möchte im November nach Berlin fahren. Ich brauche ein Einzelzimmer für eine Woche. Können Sie mir bitte Informationen über Hotels und Preise schicken?\n\nVielen Dank für Ihre Hilfe.\n\nMit freundlichen Grüßen\n[Your First Name] [Your Last Name]** [Hallo (Name), mein Geburtstag ist nächste Woche (z.B. am 20. April). Die Feier ist bei mir zu Hause um 18 Uhr. Wir essen Kuchen und spielen. Bitte komm! Liebe Grüße, (Ihr Name)]" } }

/-! The finish step of the exam interface. -/

/-- `ExamInterfaceReviewData` from exam-interface.tsx, restricted to the
fields the claims touch; the listening part/question pass-through fields are
omitted, the per-branch optional fields are kept. -/
structure ExamInterfaceReviewData where
  questions : Option (List Question)
  answers : Option AnswerMap
  score : ℚ
  percentage : JSNum
  isPass : Bool
  queueId : Option String
  writingEvaluation : Option WritingEvaluation
  listeningAnswers : Option (Nat → Option Int)

/-- The arguments of the `onComplete(percentage, moduleConfig.maxPoints,
reviewData)` call at the end of `handleFinishExam`. -/
structure CompletionCall where
  finalScore : JSNum
  total : Nat
  reviewData : ExamInterfaceReviewData

/-- Observable outcome of one `handleFinishExam` run: the completion call
plus whether a submission failure was logged (the only effect a failed PATCH
has). -/
structure FinishResult where
  call : CompletionCall
  submissionErrorLogged : Bool

/-- Whether the result-submission `try`/`catch` logged an error: attempted
and either the fetch threw or the response was not ok (exam-interface.tsx
lines 268-294). -/
def submissionErrorLoggedCalc (attempted : Bool) (submitOutcome : Except String Bool) : Bool :=
  attempted &&
    (match submitOutcome with
     | Except.ok ok => !ok
     | Except.error _ => true)

/-- `handleFinishExam` from exam-interface.tsx (lines 148-297), with the two
asynchronous round trips supplied as explicit outcomes: `evalOutcome` is the
writing submit-then-poll-evaluation round trip (an `Except`, `error` when
either step threw), `submitOutcome` is the result PATCH (`error` when the
fetch threw, otherwise the ok flag of the response). -/
def handleFinishExam (level : CEFRLevel) (module : ExamModule)
    (questions : List Question) (listeningQuestions : List ListeningFlatQuestion)
    (answers : AnswerMap) (queueId : Option String)
    (evalOutcome : Except String EvaluationResponse)
    (submitOutcome : Except String Bool) : FinishResult :=
  let examConfig := examConfigs level
  let moduleConfig := examConfig.modules module
  if module = ExamModule.Schreiben then
    let evaluationResponse :=
      match queueId, evalOutcome with
      | some _, Except.ok resp => resp
      | some _, Except.error _ => getWritingEvaluationSample
      | none, _ => getWritingEvaluationSample
    let writingEvaluation := evaluationResponse.evaluation
    let percentage := JSNum.val writingEvaluation.geschaetztePunktzahl
    let isPass := jsGe percentage (examConfig.passScore : ℚ)
    let score : ℚ :=
      ((jsRound (writingEvaluation.geschaetztePunktzahl / 100 * (moduleConfig.maxPoints : ℚ))) : ℚ)
    let reviewData : ExamInterfaceReviewData :=
      { questions := some questions
        answers := some answers
        score := score
        percentage := percentage
        isPass := isPass
        queueId := queueId
        writingEvaluation := some writingEvaluation
        listeningAnswers := none }
    { call := { finalScore := percentage, total := moduleConfig.maxPoints, reviewData := reviewData }
      submissionErrorLogged := false }
  else if module = ExamModule.Hoeren then
    let agg := listeningAnswerAggregate listeningQuestions answers
    let score : ℚ := (listeningScore listeningQuestions agg : ℚ)
    let percentage := listeningPercentage listeningQuestions answers
    let isPass := jsGe percentage (examConfig.passScore : ℚ)
    let reviewData : ExamInterfaceReviewData :=
      { questions := none
        answers := none
        score := score
        percentage := percentage
        isPass := isPass
        queueId := queueId
        writingEvaluation := none
        listeningAnswers := some agg }
    { call := { finalScore := percentage, total := moduleConfig.maxPoints, reviewData := reviewData }
      submissionErrorLogged := submissionErrorLoggedCalc queueId.isSome submitOutcome }
  else
    let score := regularScore questions answers
    let percentage := regularPercentage questions answers
    let isPass := jsGe percentage (examConfig.passScore : ℚ)
    let reviewData : ExamInterfaceReviewData :=
      { questions := some questions
        answers := some answers
        score := score
        percentage := percentage
        isPass := isPass
        queueId := queueId
        writingEvaluation := none
        listeningAnswers := none }
    { call := { finalScore := percentage, total := moduleConfig.maxPoints, reviewData := reviewData }
      submissionErrorLogged :=
        submissionErrorLoggedCalc (queueId.isSome && decide (module = ExamModule.Lesen)) submitOutcome }

/-- The slice of the `Home` state (src/app/page.tsx) that `handleExamComplete`
writes. -/
structure HomeState where
  score : JSNum
  totalQuestions : Nat
  reviewData : Option ExamInterfaceReviewData
  examCompleted : Bool

/-- `handleExamComplete` from src/app/page.tsx (lines 46-51): the first
callback argument is stored as the page field `score` (consumed by the results
page), the second as `totalQuestions`. -/
def handleExamComplete (finalScore : JSNum) (total : Nat)
    (examReviewData : ExamInterfaceReviewData) (s : HomeState) : HomeState :=
  { s with
    score := finalScore
    totalQuestions := total
    reviewData := some examReviewData
    examCompleted := true }

/-! Request-deduplication cache (src/unnamed/part_002, lines 247-415). -/

/-- Process-wide state of one dedup cache (`requestCache` /
`writingRequestCache`): the map from cache key to the pending promise
(promises numbered by creation order), the number of backend job-creation
calls issued so far, and the next fresh promise id. -/
structure CacheState where
  cache : List (String × Nat)
  creations : Nat
  nextId : Nat
deriving DecidableEq

/-- `Map.has`/`Map.get` on the modelled cache. -/
def lookupCache : List (String × Nat) → String → Option Nat
  | [], _ => none
  | (k2, v) :: rest, k => if k2 = k then some v else lookupCache rest k

/-- `Map.delete` on the modelled cache. -/
def removeCache (c : List (String × Nat)) (k : String) : List (String × Nat) :=
  c.filter (fun p => decide (p.1 ≠ k))

/-- Cache key of `fetchReadingExamFromAPI`: `reading-${level}`. -/
def levelString : CEFRLevel → String
  | CEFRLevel.A1 => "A1"
  | CEFRLevel.A2 => "A2"
  | CEFRLevel.B1 => "B1"
  | CEFRLevel.B2 => "B2"
  | CEFRLevel.C1 => "C1"
  | CEFRLevel.C2 => "C2"

/-- `reading-${level}`, the dedup key of `fetchReadingExamFromAPI`. -/
def readingCacheKey (level : CEFRLevel) : String := "reading-" ++ levelString level

/-- `writing-${level}`, the dedup key of `fetchWritingExamFromAPI`. -/
def writingCacheKey (level : CEFRLevel) : String := "writing-" ++ levelString level

/-- Entry step of `fetchReadingExamFromAPI` / `fetchWritingExamFromAPI`
(part_002 lines 251-260 and 327-331): if the key is cached, return the
pending promise unchanged; otherwise start `requestPromise()` — which issues
exactly one backend creation call — and cache the fresh promise. -/
def startRequest (key : String) (s : CacheState) : Nat × CacheState :=
  match lookupCache s.cache key with
  | some p => (p, s)
  | none =>
    (s.nextId,
     { cache := (key, s.nextId) :: s.cache
       creations := s.creations + 1
       nextId := s.nextId + 1 })

/-- The `finally { requestCache.delete(cacheKey) }` step (part_002 lines
321-324): when the pending request settles — with either outcome — its cache
entry is removed.  The settlement outcome is taken as an argument and
ignored, mirroring `finally`. -/
def settleRequest (key : String) (_outcome : Except String Unit) (s : CacheState) : CacheState :=
  { s with cache := removeCache s.cache key }

/-! Create-then-poll protocol (src/unnamed/part_002, poll loops of
`fetchReadingExamFromAPI`, `fetchWritingExamFromAPI`,
`fetchWritingEvaluationFromAPI`). -/

/-- Outcome of inspecting one poll response (`α` is the payload type; for
the evaluation endpoint "populated" means a payload carrying an
evaluation). -/
inductive PollOutcome (α : Type)
  | notReady
  | failed (status : Nat)
  | ready (payload : α)
deriving DecidableEq

/-- Error with which a whole create-then-poll sequence rejects. -/
inductive PollError
  | fetchFailed (status : Nat)
  | timeout
deriving DecidableEq

/-- One poll step, from the body of the `while` loops: status 404 is "not
ready, keep polling"; any other non-2xx status is a fatal fetch error; a
success response ends polling when its payload is populated and otherwise
counts as "not ready". -/
def pollStep {α : Type} (status : Nat) (payload : Option α) : PollOutcome α :=
  if status = 404 then PollOutcome.notReady
  else if ¬(200 ≤ status ∧ status ≤ 299) then PollOutcome.failed status
  else
    match payload with
    | some p => PollOutcome.ready p
    | none => PollOutcome.notReady

/-- The polling `while` loop (`attempts < maxAttempts`), recursing on the
remaining attempt budget.  `resp i` is the (status, payload) of the i-th
poll.  Returns the result of the sequence together with the number of polls
performed; an exhausted budget rejects with `TimeoutError`. -/
def pollLoopAux {α : Type} (resp : Nat → Nat × Option α) :
    Nat → Nat → Except PollError α × Nat
  | _, 0 => (Except.error PollError.timeout, 0)
  | attempt, fuel + 1 =>
    match pollStep (resp attempt).1 (resp attempt).2 with
    | PollOutcome.ready p => (Except.ok p, 1)
    | PollOutcome.failed st => (Except.error (PollError.fetchFailed st), 1)
    | PollOutcome.notReady =>
      let rest := pollLoopAux resp (attempt + 1) fuel
      (rest.1, rest.2 + 1)

/-- `maxAttempts = 60` from all three poll loops. -/
def maxAttempts : Nat := 60

/-- The full polling phase: up to `maxAttempts` polls starting at attempt
0. -/
def pollLoop {α : Type} (resp : Nat → Nat × Option α) : Except PollError α × Nat :=
  pollLoopAux resp 0 maxAttempts

/-! Helper lemmas. -/

/-- Removing a key from the modelled cache makes its lookup fail. -/
theorem lookupCache_removeCache (k : String) :
    ∀ c : List (String × Nat), lookupCache (removeCache c k) k = none := by
  intro c
  induction c with
  | nil => rfl
  | cons p rest ih =>
    by_cases hp : p.1 = k
    · simpa [removeCache, List.filter_cons, hp] using ih
    · simpa [removeCache, List.filter_cons, hp, lookupCache] using ih

/-- The listening score fold counts the flattened questions whose aggregated
answer matches their correct index. -/
theorem listeningScore_eq_countP (agg : Nat → Option Int)
    (lqs : List ListeningFlatQuestion) :
    listeningScore lqs agg
      = lqs.countP (fun lq => decide (agg lq.globalIndex = some lq.correctAnswerIndex)) := by
  have haux : ∀ (l : List ListeningFlatQuestion) (n : Nat),
      l.foldl (fun s q => if agg q.globalIndex = some q.correctAnswerIndex then s + 1 else s) n
        = n + l.countP (fun lq => decide (agg lq.globalIndex = some lq.correctAnswerIndex)) := by
    intro l
    induction l with
    | nil => intro n; simp
    | cons x xs ih =>
      intro n
      by_cases hx : agg x.globalIndex = some x.correctAnswerIndex
      · simp only [List.foldl_cons, if_pos hx, ih, List.countP_cons, hx]
        simp
        omega
      · simp only [List.foldl_cons, if_neg hx, ih, List.countP_cons]
        simp [hx]
  simpa [listeningScore] using haux lqs 0

/-- A run of the poll loop in which every poll is "not ready" exhausts
exactly its attempt budget and times out. -/
theorem pollLoopAux_all_notReady {α : Type} (resp : Nat → Nat × Option α)
    (h : ∀ i, pollStep (resp i).1 (resp i).2 = PollOutcome.notReady) :
    ∀ (fuel a : Nat), pollLoopAux resp a fuel = (Except.error PollError.timeout, fuel) := by
  intro fuel
  induction fuel with
  | zero => intro a; rfl
  | succ n ih =>
    intro a
    simp only [pollLoopAux, h a, ih (a + 1)]

/-! Claim theorems. -/

/-- Claim C1: for every dedup key, while a request is pending a second call
for the same key returns the same pending promise and leaves the cache state
unchanged (exactly one backend creation call was issued); settling — with
either outcome — removes the dedup entry, and a call after settlement starts
a fresh creation+poll sequence (a second creation call, a new promise). -/
theorem dedup_single_inflight (k : String) (s : CacheState)
    (o o2 : Except String Unit)
    (h : lookupCache s.cache k = none) :
    (startRequest k (startRequest k s).2).1 = (startRequest k s).1 ∧
    (startRequest k (startRequest k s).2).2 = (startRequest k s).2 ∧
    (startRequest k s).2.creations = s.creations + 1 ∧
    settleRequest k o (startRequest k s).2 = settleRequest k o2 (startRequest k s).2 ∧
    lookupCache (settleRequest k o (startRequest k s).2).cache k = none ∧
    (startRequest k (settleRequest k o (startRequest k s).2)).2.creations = s.creations + 2 ∧
    (startRequest k (settleRequest k o (startRequest k s).2)).1 ≠ (startRequest k s).1 := by
  have h1 : startRequest k s
      = (s.nextId, ⟨(k, s.nextId) :: s.cache, s.creations + 1, s.nextId + 1⟩) := by
    simp [startRequest, h]
  have hlook : lookupCache ((k, s.nextId) :: s.cache) k = some s.nextId := by
    simp [lookupCache]
  refine ⟨?_, ?_, ?_, ?_, ?_, ?_, ?_⟩ <;>
    rw [h1] <;>
    simp [startRequest, settleRequest, lookupCache, lookupCache_removeCache]

/-- Claim C1 witness: concrete round trip from an empty cache state with the
reading key for level A1. -/
theorem dedup_single_inflight_witness :
    lookupCache (CacheState.mk [] 0 0).cache (readingCacheKey CEFRLevel.A1) = none ∧
    (startRequest (readingCacheKey CEFRLevel.A1)
        (startRequest (readingCacheKey CEFRLevel.A1) (CacheState.mk [] 0 0)).2).1
      = (startRequest (readingCacheKey CEFRLevel.A1) (CacheState.mk [] 0 0)).1 ∧
    (startRequest (readingCacheKey CEFRLevel.A1) (CacheState.mk [] 0 0)).2.creations = 0 + 1 ∧
    (startRequest (readingCacheKey CEFRLevel.A1)
        (settleRequest (readingCacheKey CEFRLevel.A1) (Except.ok ())
          (startRequest (readingCacheKey CEFRLevel.A1) (CacheState.mk [] 0 0)).2)).2.creations
      = 0 + 2 :=
  ⟨rfl,
   (dedup_single_inflight (readingCacheKey CEFRLevel.A1) (CacheState.mk [] 0 0)
     (Except.ok ()) (Except.error "e") rfl).1,
   (dedup_single_inflight (readingCacheKey CEFRLevel.A1) (CacheState.mk [] 0 0)
     (Except.ok ()) (Except.error "e") rfl).2.2.1,
   (dedup_single_inflight (readingCacheKey CEFRLevel.A1) (CacheState.mk [] 0 0)
     (Except.ok ()) (Except.error "e") rfl).2.2.2.2.2.1⟩

/-- Claim C2: one poll step of the content/evaluation fetch loop: a 404
continues polling; a 200 with an empty payload continues polling; a 200 with
a populated payload ends polling with that payload; any other non-2xx status
is fatal; and within the loop a ready step resolves the sequence with the
payload while a fatal step rejects it with a fetch error. -/
theorem poll_step_semantics {α : Type} (status : Nat) (payload : Option α) (p : α)
    (resp : Nat → Nat × Option α) (a fuel : Nat) :
    pollStep 404 payload = PollOutcome.notReady ∧
    pollStep 200 (none : Option α) = PollOutcome.notReady ∧
    pollStep 200 (some p) = PollOutcome.ready p ∧
    (status ≠ 404 → ¬(200 ≤ status ∧ status ≤ 299) →
      pollStep status payload = PollOutcome.failed status) ∧
    (pollStep (resp a).1 (resp a).2 = PollOutcome.ready p →
      (pollLoopAux resp a (fuel + 1)).1 = Except.ok p) ∧
    (∀ st, pollStep (resp a).1 (resp a).2 = PollOutcome.failed st →
      (pollLoopAux resp a (fuel + 1)).1 = Except.error (PollError.fetchFailed st)) := by
  refine ⟨rfl, rfl, rfl, ?_, ?_, ?_⟩
  · intro h1 h2
    simp [pollStep, h1, h2]
  · intro hstep
    simp [pollLoopAux, hstep]
  · intro st hstep
    simp [pollLoopAux, hstep]

/-- Claim C2 witness: concrete poll responses exercising the not-ready, fatal
and ready cases, the latter two via the theorem with its hypotheses
discharged. -/
theorem poll_step_semantics_witness :
    pollStep 404 (some 7) = PollOutcome.notReady ∧
    pollStep 500 (some 7) = PollOutcome.failed 500 ∧
    (pollLoopAux (fun _ => (200, some 7)) 0 1).1 = Except.ok 7 :=
  ⟨(poll_step_semantics 500 (some 7) 7 (fun _ => (200, some 7)) 0 0).1,
   (poll_step_semantics 500 (some 7) 7 (fun _ => (200, some 7)) 0 0).2.2.2.1
     (by decide) (by decide),
   (poll_step_semantics 500 (some 7) 7 (fun _ => (200, some 7)) 0 0).2.2.2.2.1 rfl⟩

/-- Claim C3: a run of the polling loop in which every poll returns the
not-ready signal performs exactly the 60-attempt budget and then rejects
with the timeout error. -/
theorem poll_timeout_after_60 {α : Type} (resp : Nat → Nat × Option α)
    (h : ∀ i, pollStep (resp i).1 (resp i).2 = PollOutcome.notReady) :
    pollLoop resp = (Except.error PollError.timeout, 60) ∧ maxAttempts = 60 :=
  ⟨pollLoopAux_all_notReady resp h maxAttempts 0, rfl⟩

/-- Claim C3 witness: a response stream that always answers 404. -/
theorem poll_timeout_after_60_witness :
    pollLoop (fun _ => (404, (none : Option Unit))) = (Except.error PollError.timeout, 60) :=
  (poll_timeout_after_60 (fun _ => (404, (none : Option Unit))) (fun _ => rfl)).1

/-- Claim C4: a multiple-choice question contributes exactly 1 point when
the stored answer equals its correct-option index and 0 otherwise, and the
listening branch scores one point per flattened question whose aggregated
answer equals its correct index. -/
theorem mc_scoring (q : Question) (c a : Int)
    (lqs : List ListeningFlatQuestion) (agg : Nat → Option Int)
    (hq : q.type = QType.multipleChoice)
    (hc : q.correctAnswer = some (JSAnswer.num c)) :
    (questionPoints q (some (JSAnswer.num a)) = if a = c then 1 else 0) ∧
    questionPoints q none = 0 ∧
    listeningScore lqs agg
      = lqs.countP (fun lq => decide (agg lq.globalIndex = some lq.correctAnswerIndex)) := by
  refine ⟨?_, ?_, listeningScore_eq_countP agg lqs⟩
  · by_cases hac : a = c
    · subst hac
      simp [questionPoints, hq, hc, strictEq]
    · simp [questionPoints, hq, hc, strictEq, hac]
  · simp [questionPoints, hq, hc, strictEq, truthy]

/-- Claim C4 witness: a two-option question with correct index 1, answered
correctly and answered wrongly, and a one-question listening exam. -/
theorem mc_scoring_witness :
    (Question.mk 1 QType.multipleChoice "w" (some (JSAnswer.num 1))).type
        = QType.multipleChoice ∧
    questionPoints (Question.mk 1 QType.multipleChoice "w" (some (JSAnswer.num 1)))
        (some (JSAnswer.num 1)) = 1 ∧
    questionPoints (Question.mk 1 QType.multipleChoice "w" (some (JSAnswer.num 1)))
        (some (JSAnswer.num 0)) = 0 ∧
    listeningScore [ListeningFlatQuestion.mk 0 1 1 2] (fun _ => some 2) = 1 := by
  refine ⟨rfl, ?_, ?_, ?_⟩
  · have h := (mc_scoring (Question.mk 1 QType.multipleChoice "w" (some (JSAnswer.num 1)))
      1 1 [ListeningFlatQuestion.mk 0 1 1 2] (fun _ => some 2) rfl rfl).1
    simpa using h
  · have h := (mc_scoring (Question.mk 1 QType.multipleChoice "w" (some (JSAnswer.num 1)))
      1 0 [ListeningFlatQuestion.mk 0 1 1 2] (fun _ => some 2) rfl rfl).1
    simpa using h
  · have h := (mc_scoring (Question.mk 1 QType.multipleChoice "w" (some (JSAnswer.num 1)))
      1 0 [ListeningFlatQuestion.mk 0 1 1 2] (fun _ => some 2) rfl rfl).2.2
    simpa using h

/-- Claim C5: in the local (no remote evaluation) scoring branch, a text or
speaking question contributes exactly 0.8 points when a non-empty answer was
recorded and 0 points when the answer is empty or missing. -/
theorem freetext_scoring (q : Question) (s : String)
    (hq : q.type = QType.text ∨ q.type = QType.speaking) :
    (s ≠ "" → questionPoints q (some (JSAnswer.str s)) = 8/10) ∧
    questionPoints q (some (JSAnswer.str "")) = 0 ∧
    questionPoints q none = 0 := by
  refine ⟨?_, ?_, ?_⟩
  · intro hs
    rcases hq with h | h <;> simp [questionPoints, h, truthy, strictEq, hs]
  · rcases hq with h | h <;> simp [questionPoints, h, truthy, strictEq]
  · rcases hq with h | h <;> simp [questionPoints, h, truthy, strictEq]

/-- Claim C5 witness: a speaking question with a non-empty, an empty and a
missing answer. -/
theorem freetext_scoring_witness :
    ((Question.mk 1 QType.speaking "w" (some (JSAnswer.str ""))).type = QType.text ∨
      (Question.mk 1 QType.speaking "w" (some (JSAnswer.str ""))).type = QType.speaking) ∧
    questionPoints (Question.mk 1 QType.speaking "w" (some (JSAnswer.str "")))
        (some (JSAnswer.str "abc")) = 8/10 ∧
    questionPoints (Question.mk 1 QType.speaking "w" (some (JSAnswer.str "")))
        (some (JSAnswer.str "")) = 0 ∧
    questionPoints (Question.mk 1 QType.speaking "w" (some (JSAnswer.str ""))) none = 0 :=
  ⟨Or.inr rfl,
   (freetext_scoring (Question.mk 1 QType.speaking "w" (some (JSAnswer.str ""))) "abc"
       (Or.inr rfl)).1 (by decide),
   (freetext_scoring (Question.mk 1 QType.speaking "w" (some (JSAnswer.str ""))) "abc"
       (Or.inr rfl)).2.1,
   (freetext_scoring (Question.mk 1 QType.speaking "w" (some (JSAnswer.str ""))) "abc"
       (Or.inr rfl)).2.2⟩

/-- Claim C6 counterexample: finishing a Lesen session whose question list
is empty yields a NaN percentage (JavaScript `Math.round((0/0)*100)`), not
the claimed 0 — only the listening branch guards the zero-item case. -/
theorem zero_items_percentage_counterexample :
    (handleFinishExam CEFRLevel.A1 ExamModule.Lesen [] [] (fun _ => none) none
        (Except.error "") (Except.ok true)).call.finalScore = JSNum.nan ∧
    JSNum.nan ≠ JSNum.val 0 := by
  constructor
  · simp [handleFinishExam, regularPercentage, regularScore, jsDiv, jsMul, jsRoundNum]
  · simp

/-- Claim C6 (amended): for the non-writing-evaluated modules the percentage
equals round(100·score/total) whenever there is at least one gradable item;
with zero gradable items the listening branch yields 0 while the
reading/speaking local-scoring branch yields NaN. -/
theorem percentage_formula (level : CEFRLevel)
    (questions : List Question) (lqs : List ListeningFlatQuestion)
    (answers : AnswerMap) (queueId : Option String)
    (evalOutcome : Except String EvaluationResponse) (submitOutcome : Except String Bool)
    (hne : questions ≠ []) :
    regularPercentage questions answers
      = JSNum.val ((jsRound (100 * regularScore questions answers / (questions.length : ℚ)) : ℤ) : ℚ) ∧
    regularPercentage [] answers = JSNum.nan ∧
    (0 < lqs.length →
      listeningPercentage lqs answers
        = JSNum.val ((jsRound (100 * (listeningScore lqs (listeningAnswerAggregate lqs answers) : ℚ)
            / (lqs.length : ℚ)) : ℤ) : ℚ)) ∧
    listeningPercentage [] answers = JSNum.val 0 ∧
    (handleFinishExam level ExamModule.Lesen questions lqs answers queueId evalOutcome
        submitOutcome).call.finalScore = regularPercentage questions answers ∧
    (handleFinishExam level ExamModule.Hoeren questions lqs answers queueId evalOutcome
        submitOutcome).call.finalScore = listeningPercentage lqs answers := by
  refine ⟨?_, ?_, ?_, ?_, rfl, rfl⟩
  · have hq : (questions.length : ℚ) ≠ 0 := by
      have : questions.length ≠ 0 := fun h0 => hne (List.length_eq_zero.mp h0)
      exact_mod_cast this
    have harith : regularScore questions answers / (questions.length : ℚ) * 100
        = 100 * regularScore questions answers / (questions.length : ℚ) := by
      ring
    simp [regularPercentage, jsDiv, hq, jsMul, jsRoundNum, harith]
  · simp [regularPercentage, regularScore, jsDiv, jsMul, jsRoundNum]
  · intro hl
    have hq : (lqs.length : ℚ) ≠ 0 := by
      have : lqs.length ≠ 0 := Nat.pos_iff_ne_zero.mp hl
      exact_mod_cast this
    have harith : (listeningScore lqs (listeningAnswerAggregate lqs answers) : ℚ)
          / (lqs.length : ℚ) * 100
        = 100 * (listeningScore lqs (listeningAnswerAggregate lqs answers) : ℚ)
          / (lqs.length : ℚ) := by
      ring
    simp [listeningPercentage, hl, harith]
  · simp [listeningPercentage]

/-- Claim C6 (amended) witness: a one-question Lesen session and an empty
listening session. -/
theorem percentage_formula_witness :
    ([Question.mk 1 QType.multipleChoice "w" (some (JSAnswer.num 0))] ≠ ([] : List Question)) ∧
    regularPercentage [Question.mk 1 QType.multipleChoice "w" (some (JSAnswer.num 0))]
        (fun _ => none)
      = JSNum.val ((jsRound (100 * regularScore
          [Question.mk 1 QType.multipleChoice "w" (some (JSAnswer.num 0))] (fun _ => none)
          / ((1 : Nat) : ℚ)) : ℤ) : ℚ) ∧
    listeningPercentage [] (fun _ => none) = JSNum.val 0 := by
  refine ⟨by simp, ?_, ?_⟩
  · have h := (percentage_formula CEFRLevel.A1
      [Question.mk 1 QType.multipleChoice "w" (some (JSAnswer.num 0))] []
      (fun _ => none) none (Except.error "") (Except.ok true) (by simp)).1
    simpa using h
  · exact (percentage_formula CEFRLevel.A1
      [Question.mk 1 QType.multipleChoice "w" (some (JSAnswer.num 0))] []
      (fun _ => none) none (Except.error "") (Except.ok true) (by simp)).2.2.2.1

/-- Claim C7: the configured pass score of every level is 60, in every branch the
pass decision is the JavaScript comparison `percentage >= passScore` against
the configured pass score, and on the writing path with a successful remote
evaluation the percentage is the evaluator value `geschätztePunktzahl`. -/
theorem pass_decision (level : CEFRLevel) (module : ExamModule)
    (questions : List Question) (lqs : List ListeningFlatQuestion)
    (answers : AnswerMap) (queueId : Option String)
    (evalOutcome : Except String EvaluationResponse) (submitOutcome : Except String Bool)
    (resp : EvaluationResponse) (qid : String) :
    (examConfigs level).passScore = 60 ∧
    (handleFinishExam level module questions lqs answers queueId evalOutcome
        submitOutcome).call.reviewData.isPass
      = jsGe (handleFinishExam level module questions lqs answers queueId evalOutcome
          submitOutcome).call.reviewData.percentage ((examConfigs level).passScore : ℚ) ∧
    (handleFinishExam level ExamModule.Schreiben questions lqs answers (some qid)
        (Except.ok resp) submitOutcome).call.reviewData.percentage
      = JSNum.val resp.evaluation.geschaetztePunktzahl := by
  refine ⟨?_, ?_, rfl⟩
  · cases level <;> rfl
  · cases module <;> rfl

/-- Claim C8: when the writing-evaluation round trip throws, finishing a
Schreiben exam substitutes the fixed local sample evaluation: the review
data carries that sample, the percentage is its `geschätztePunktzahl` (45),
the pass flag is the comparison of that percentage with the configured pass
score, and the raw score is round(percentage/100 · maxPoints) (11 points out
of 25). -/
theorem writing_fallback (level : CEFRLevel)
    (questions : List Question) (lqs : List ListeningFlatQuestion)
    (answers : AnswerMap) (qid err : String) (submitOutcome : Except String Bool) :
    (handleFinishExam level ExamModule.Schreiben questions lqs answers (some qid)
        (Except.error err) submitOutcome).call.reviewData.writingEvaluation
      = some getWritingEvaluationSample.evaluation ∧
    (handleFinishExam level ExamModule.Schreiben questions lqs answers (some qid)
        (Except.error err) submitOutcome).call.reviewData.percentage
      = JSNum.val getWritingEvaluationSample.evaluation.geschaetztePunktzahl ∧
    (handleFinishExam level ExamModule.Schreiben questions lqs answers (some qid)
        (Except.error err) submitOutcome).call.reviewData.percentage = JSNum.val 45 ∧
    (handleFinishExam level ExamModule.Schreiben questions lqs answers (some qid)
        (Except.error err) submitOutcome).call.reviewData.isPass
      = jsGe (JSNum.val getWritingEvaluationSample.evaluation.geschaetztePunktzahl)
          ((examConfigs level).passScore : ℚ) ∧
    (handleFinishExam level ExamModule.Schreiben questions lqs answers (some qid)
        (Except.error err) submitOutcome).call.reviewData.isPass = false ∧
    (handleFinishExam level ExamModule.Schreiben questions lqs answers (some qid)
        (Except.error err) submitOutcome).call.reviewData.score
      = ((jsRound (getWritingEvaluationSample.evaluation.geschaetztePunktzahl / 100
          * (((examConfigs level).modules ExamModule.Schreiben).maxPoints : ℚ))) : ℚ) ∧
    (handleFinishExam level ExamModule.Schreiben questions lqs answers (some qid)
        (Except.error err) submitOutcome).call.reviewData.score = 11 := by
  refine ⟨rfl, rfl, rfl, rfl, ?_, rfl, ?_⟩
  · cases level <;>
      simp [handleFinishExam, getWritingEvaluationSample, examConfigs, jsGe] <;>
      norm_num
  · cases level <;>
      simp [handleFinishExam, getWritingEvaluationSample, examConfigs, jsRound] <;>
      norm_num

/-- Claim C9: result submission is best-effort for Lesen and Hören — the
completion call (score, percentage, pass flag, review data) is the same
whether the PATCH succeeds, returns a non-success status, or throws. -/
theorem submission_best_effort (level : CEFRLevel) (module : ExamModule)
    (questions : List Question) (lqs : List ListeningFlatQuestion)
    (answers : AnswerMap) (queueId : Option String)
    (evalOutcome : Except String EvaluationResponse)
    (o1 o2 : Except String Bool)
    (hm : module = ExamModule.Lesen ∨ module = ExamModule.Hoeren) :
    (handleFinishExam level module questions lqs answers queueId evalOutcome o1).call
      = (handleFinishExam level module questions lqs answers queueId evalOutcome o2).call := by
  rcases hm with h | h <;> subst h <;> rfl

/-- Claim C9 witness: a Lesen finish with a throwing PATCH versus one whose
response is not ok. -/
theorem submission_best_effort_witness :
    (ExamModule.Lesen = ExamModule.Lesen ∨ ExamModule.Lesen = ExamModule.Hoeren) ∧
    (handleFinishExam CEFRLevel.A1 ExamModule.Lesen [] [] (fun _ => none) (some "q")
        (Except.error "") (Except.error "network")).call
      = (handleFinishExam CEFRLevel.A1 ExamModule.Lesen [] [] (fun _ => none) (some "q")
          (Except.error "") (Except.ok false)).call :=
  ⟨Or.inl rfl,
   submission_best_effort CEFRLevel.A1 ExamModule.Lesen [] [] (fun _ => none) (some "q")
     (Except.error "") (Except.error "network") (Except.ok false) (Or.inl rfl)⟩

/-- Claim C10: the completion callback receives the percentage as its first
argument (stored by the page as the score shown on the results page) and the
configured maxPoints of the module as its second; the raw point total travels
only in `reviewData.score`. -/
theorem oncomplete_args (level : CEFRLevel)
    (questions : List Question) (lqs : List ListeningFlatQuestion)
    (answers : AnswerMap) (queueId : Option String)
    (evalOutcome : Except String EvaluationResponse) (submitOutcome : Except String Bool)
    (st : HomeState) :
    (handleFinishExam level ExamModule.Lesen questions lqs answers queueId evalOutcome
        submitOutcome).call.finalScore = regularPercentage questions answers ∧
    (handleFinishExam level ExamModule.Lesen questions lqs answers queueId evalOutcome
        submitOutcome).call.total = ((examConfigs level).modules ExamModule.Lesen).maxPoints ∧
    (handleFinishExam level ExamModule.Lesen questions lqs answers queueId evalOutcome
        submitOutcome).call.reviewData.score = regularScore questions answers ∧
    (handleFinishExam level ExamModule.Hoeren questions lqs answers queueId evalOutcome
        submitOutcome).call.finalScore = listeningPercentage lqs answers ∧
    (handleFinishExam level ExamModule.Hoeren questions lqs answers queueId evalOutcome
        submitOutcome).call.total = ((examConfigs level).modules ExamModule.Hoeren).maxPoints ∧
    (handleFinishExam level ExamModule.Hoeren questions lqs answers queueId evalOutcome
        submitOutcome).call.reviewData.score
      = ((listeningScore lqs (listeningAnswerAggregate lqs answers) : ℚ)) ∧
    (handleExamComplete
        (handleFinishExam level ExamModule.Lesen questions lqs answers queueId evalOutcome
          submitOutcome).call.finalScore
        (handleFinishExam level ExamModule.Lesen questions lqs answers queueId evalOutcome
          submitOutcome).call.total
        (handleFinishExam level ExamModule.Lesen questions lqs answers queueId evalOutcome
          submitOutcome).call.reviewData st).score
      = regularPercentage questions answers :=
  ⟨rfl, rfl, rfl, rfl, rfl, rfl, rfl⟩

end GoetheExam
